import Mathlib

/-!
Shallow embedding of the FeistyDB C shim layer: the SHA and xxHash SQLite
scalar-function extensions (src/sqlite/sha.c, src/sqlite/xxh.c), the
constructor-time auto-extension registration
(src/sqlite/feisty_db_register_sqlite_extensions.c,
src/sqlite/feisty_db_register_sqlite_uuid_extension.c), and the
db_config / vtab_config forwarder functions of the two glue variants
(src/FeistyDB/feisty_db_sqlite3_glue.c,
src/Sources/CSQLite/feisty_db_sqlite3_glue.c).

External collaborators (the SQLite engine, CommonCrypto digests, the xxHash
library) are modelled abstractly: digest and hash computations are function
parameters, and engine calls are function parameters returning the raw
engine outcome.  Machine-integer conversions performed by the C code
(unsigned-to-signed at the sqlite3_result_int / sqlite3_result_int64 call
sites) are made explicit with Nat/Int arithmetic modulo 2^32 and 2^64.
-/

/-- Runtime-typed SQLite argument value, as dispatched on by
sqlite3_value_type.  The float payload is never read by any function in this
layer (only its type tag is inspected), so it carries no data. -/
inductive SQLiteValue where
  | blob (bytes : List Nat)
  | text (bytes : List Nat)
  | integer (value : Int)
  | float
  | null
deriving DecidableEq

/-- The observable result set through the sqlite3_result_* API by one scalar
function call: exactly one of a blob, a 32-bit int (sqlite3_result_int), a
64-bit int (sqlite3_result_int64), null, or an error message. -/
inductive SQLiteResult where
  | blobRes (bytes : List Nat)
  | intRes (value : Int)
  | int64Res (value : Int)
  | nullRes
  | errorRes (msg : String)
deriving DecidableEq

/-- C conversion of an unsigned 32-bit value to a signed int, as performed
when the unsigned hash variable is passed to sqlite3_result_int
(two's complement reinterpretation; 4294967296 = 2^32, 2147483648 = 2^31). -/
def toInt32 (n : Nat) : Int :=
  if n % 4294967296 < 2147483648 then ((n % 4294967296 : Nat) : Int)
  else ((n % 4294967296 : Nat) : Int) - 4294967296

/-- C conversion of an unsigned 64-bit value to a signed 64-bit integer, as
performed when the unsigned long long hash variable is passed to
sqlite3_result_int64 (18446744073709551616 = 2^64,
9223372036854775808 = 2^63). -/
def toInt64 (n : Nat) : Int :=
  if n % 18446744073709551616 < 9223372036854775808 then
    ((n % 18446744073709551616 : Nat) : Int)
  else ((n % 18446744073709551616 : Nat) : Int) - 18446744073709551616

/-- CC_SHA1_DIGEST_LENGTH from CommonCrypto. -/
def CC_SHA1_DIGEST_LENGTH : Nat := 20
/-- CC_SHA224_DIGEST_LENGTH from CommonCrypto. -/
def CC_SHA224_DIGEST_LENGTH : Nat := 28
/-- CC_SHA256_DIGEST_LENGTH from CommonCrypto. -/
def CC_SHA256_DIGEST_LENGTH : Nat := 32
/-- CC_SHA384_DIGEST_LENGTH from CommonCrypto. -/
def CC_SHA384_DIGEST_LENGTH : Nat := 48
/-- CC_SHA512_DIGEST_LENGTH from CommonCrypto. -/
def CC_SHA512_DIGEST_LENGTH : Nat := 64

/-- sha1func from src/sqlite/sha.c.  CC_SHA1 is the CommonCrypto one-shot
digest, an external library modelled as a parameter; its contract is to fill
the CC_SHA1_DIGEST_LENGTH-byte output buffer, which sqlite3_result_blob then
delivers with explicit length CC_SHA1_DIGEST_LENGTH.  Both the BLOB and the
TEXT branch hash the raw value bytes and their sqlite3_value_bytes length. -/
def sha1func (CC_SHA1 : List Nat → List Nat) (arg : SQLiteValue) : SQLiteResult :=
  match arg with
  | SQLiteValue.blob b => SQLiteResult.blobRes (CC_SHA1 b)
  | SQLiteValue.text b => SQLiteResult.blobRes (CC_SHA1 b)
  | SQLiteValue.null => SQLiteResult.nullRes
  | _ => SQLiteResult.errorRes "sha1 only supports BLOB, TEXT, and NULL types"

/-- sha224func from src/sqlite/sha.c. -/
def sha224func (CC_SHA224 : List Nat → List Nat) (arg : SQLiteValue) : SQLiteResult :=
  match arg with
  | SQLiteValue.blob b => SQLiteResult.blobRes (CC_SHA224 b)
  | SQLiteValue.text b => SQLiteResult.blobRes (CC_SHA224 b)
  | SQLiteValue.null => SQLiteResult.nullRes
  | _ => SQLiteResult.errorRes "sha224 only supports BLOB, TEXT, and NULL types"

/-- sha256func from src/sqlite/sha.c. -/
def sha256func (CC_SHA256 : List Nat → List Nat) (arg : SQLiteValue) : SQLiteResult :=
  match arg with
  | SQLiteValue.blob b => SQLiteResult.blobRes (CC_SHA256 b)
  | SQLiteValue.text b => SQLiteResult.blobRes (CC_SHA256 b)
  | SQLiteValue.null => SQLiteResult.nullRes
  | _ => SQLiteResult.errorRes "sha256 only supports BLOB, TEXT, and NULL types"

/-- sha384func from src/sqlite/sha.c. -/
def sha384func (CC_SHA384 : List Nat → List Nat) (arg : SQLiteValue) : SQLiteResult :=
  match arg with
  | SQLiteValue.blob b => SQLiteResult.blobRes (CC_SHA384 b)
  | SQLiteValue.text b => SQLiteResult.blobRes (CC_SHA384 b)
  | SQLiteValue.null => SQLiteResult.nullRes
  | _ => SQLiteResult.errorRes "sha384 only supports BLOB, TEXT, and NULL types"

/-- sha512func from src/sqlite/sha.c. -/
def sha512func (CC_SHA512 : List Nat → List Nat) (arg : SQLiteValue) : SQLiteResult :=
  match arg with
  | SQLiteValue.blob b => SQLiteResult.blobRes (CC_SHA512 b)
  | SQLiteValue.text b => SQLiteResult.blobRes (CC_SHA512 b)
  | SQLiteValue.null => SQLiteResult.nullRes
  | _ => SQLiteResult.errorRes "sha512 only supports BLOB, TEXT, and NULL types"

/-- xxh32func from src/sqlite/xxh.c.  XXH32 is the external xxHash library
one-shot function (bytes, seed) modelled as a parameter; the C code calls it
with the raw value bytes, their length, and seed 0, stores the uint32 result
in an unsigned int, and passes that to sqlite3_result_int, whose int
parameter forces the two's complement conversion captured by toInt32. -/
def xxh32func (XXH32 : List Nat → Nat → Nat) (arg : SQLiteValue) : SQLiteResult :=
  match arg with
  | SQLiteValue.blob b => SQLiteResult.intRes (toInt32 (XXH32 b 0))
  | SQLiteValue.text b => SQLiteResult.intRes (toInt32 (XXH32 b 0))
  | SQLiteValue.null => SQLiteResult.nullRes
  | _ => SQLiteResult.errorRes "xxh32 only supports BLOB, TEXT, and NULL types"

/-- xxh64func from src/sqlite/xxh.c, analogous to xxh32func with the 64-bit
library function, seed 0, and sqlite3_result_int64 (conversion toInt64). -/
def xxh64func (XXH64 : List Nat → Nat → Nat) (arg : SQLiteValue) : SQLiteResult :=
  match arg with
  | SQLiteValue.blob b => SQLiteResult.int64Res (toInt64 (XXH64 b 0))
  | SQLiteValue.text b => SQLiteResult.int64Res (toInt64 (XXH64 b 0))
  | SQLiteValue.null => SQLiteResult.nullRes
  | _ => SQLiteResult.errorRes "xxh64 only supports BLOB, TEXT, and NULL types"

/-- SQLITE_OK status code. -/
def SQLITE_OK : Int := 0

/-- SQLITE_UTF8 text-encoding flag. -/
def SQLITE_UTF8 : Nat := 1

/-- One row of the scalars[] registration table in src/sqlite/sha.c and
src/sqlite/xxh.c: function name, declared argument count, declared text
encoding (the function pointer is identified by the name). -/
structure ScalarSpec where
  name : String
  nArg : Int
  enc : Nat
deriving DecidableEq

/-- The scalars[] table of register_sha_functions (src/sqlite/sha.c), in
source order. -/
def shaScalars : List ScalarSpec :=
  [⟨"sha1", 1, SQLITE_UTF8⟩,
   ⟨"sha224", 1, SQLITE_UTF8⟩,
   ⟨"sha256", 1, SQLITE_UTF8⟩,
   ⟨"sha384", 1, SQLITE_UTF8⟩,
   ⟨"sha512", 1, SQLITE_UTF8⟩]

/-- The scalars[] table of register_xxh_functions (src/sqlite/xxh.c), in
source order. -/
def xxhScalars : List ScalarSpec :=
  [⟨"xxh32", 1, SQLITE_UTF8⟩,
   ⟨"xxh64", 1, SQLITE_UTF8⟩]

/-- sqlite3_create_function modelled by the engine contract: the engine
(abstracted as a status function of the current connection state and the
requested scalar) returns a status code; on SQLITE_OK the scalar is added to
the connection, on any other status the connection is unchanged. -/
def sqlite3_create_function (engine : List ScalarSpec → ScalarSpec → Int)
    (db : List ScalarSpec) (s : ScalarSpec) : Int × List ScalarSpec :=
  let rc := engine db s
  if rc = SQLITE_OK then (rc, db ++ [s]) else (rc, db)

/-- The shared registration loop of register_sha_functions and
register_xxh_functions: rc starts at SQLITE_OK and each iteration runs only
while rc is still SQLITE_OK, so the first failing sqlite3_create_function
call stops the loop and its code is returned. -/
def registerScalars (engine : List ScalarSpec → ScalarSpec → Int) :
    List ScalarSpec → List ScalarSpec → Int × List ScalarSpec
  | [], db => (SQLITE_OK, db)
  | s :: rest, db =>
    let r := sqlite3_create_function engine db s
    if r.1 = SQLITE_OK then registerScalars engine rest r.2 else r

/-- register_sha_functions from src/sqlite/sha.c. -/
def register_sha_functions (engine : List ScalarSpec → ScalarSpec → Int)
    (db : List ScalarSpec) : Int × List ScalarSpec :=
  registerScalars engine shaScalars db

/-- register_xxh_functions from src/sqlite/xxh.c. -/
def register_xxh_functions (engine : List ScalarSpec → ScalarSpec → Int)
    (db : List ScalarSpec) : Int × List ScalarSpec :=
  registerScalars engine xxhScalars db

/-- sqlite3_sha_init from src/sqlite/sha.c: the extension-init entry point
just runs register_sha_functions on the new connection and returns its
status. -/
def sqlite3_sha_init (engine : List ScalarSpec → ScalarSpec → Int)
    (db : List ScalarSpec) : Int × List ScalarSpec :=
  register_sha_functions engine db

/-- sqlite3_xxh_init from src/sqlite/xxh.c: the extension-init entry point
just runs register_xxh_functions on the new connection and returns its
status. -/
def sqlite3_xxh_init (engine : List ScalarSpec → ScalarSpec → Int)
    (db : List ScalarSpec) : Int × List ScalarSpec :=
  register_xxh_functions engine db

/-- The extension-init entry points appearing in this repository: the UUID
extension (declared in src/sqlite/feisty_db_register_sqlite_extensions.c,
body not shown), sqlite3_sha_init, and sqlite3_xxh_init. -/
inductive ExtensionInit where
  | uuidInit
  | shaInit
  | xxhInit
deriving DecidableEq

/-- sqlite3_auto_extension modelled on the engine global auto-extension
list: appends the entry point if it is not already listed. -/
def sqlite3_auto_extension (xs : List ExtensionInit) (f : ExtensionInit) :
    List ExtensionInit :=
  if f ∈ xs then xs else xs ++ [f]

/-- The constructor feisty_db_register_sqlite_extensions from
src/sqlite/feisty_db_register_sqlite_extensions.c: at process startup it
calls sqlite3_auto_extension on sqlite3_uuid_init and then on
sqlite3_sha_init. -/
def feisty_db_register_sqlite_extensions (xs : List ExtensionInit) :
    List ExtensionInit :=
  sqlite3_auto_extension
    (sqlite3_auto_extension xs ExtensionInit.uuidInit) ExtensionInit.shaInit

/-- The constructor feisty_db_register_sqlite_uuid_extension from
src/sqlite/feisty_db_register_sqlite_uuid_extension.c: registers only
sqlite3_uuid_init. -/
def feisty_db_register_sqlite_uuid_extension (xs : List ExtensionInit) :
    List ExtensionInit :=
  sqlite3_auto_extension xs ExtensionInit.uuidInit

/-- The scalar function names that sqlite3_sha_init registers, from the
scalars[] table in src/sqlite/sha.c. -/
def shaFunctionNames : List String :=
  shaScalars.map ScalarSpec.name

/-- The scalar function names that sqlite3_xxh_init registers, from the
scalars[] table in src/sqlite/xxh.c. -/
def xxhFunctionNames : List String :=
  xxhScalars.map ScalarSpec.name

/-- Modelled from the spec: the UUID extension whose init entry point
sqlite3_uuid_init is auto-registered is "a UUID extension not shown in
full"; its body is not under src/.  It registers UUID-related scalar
functions, none of which are the seven hash functions. -/
def uuidFunctionNames : List String :=
  ["uuid", "uuid_str", "uuid_blob"]

/-- The scalar function names each extension-init entry point registers on a
connection when it succeeds. -/
def initFunctionNames : ExtensionInit → List String
  | ExtensionInit.uuidInit => uuidFunctionNames
  | ExtensionInit.shaInit => shaFunctionNames
  | ExtensionInit.xxhInit => xxhFunctionNames

/-- The scalar function names available on a connection opened after the
auto-extension list reached the given state: the engine runs every listed
init entry point on the new connection. -/
def connectionFunctions (autoList : List ExtensionInit) : List String :=
  autoList.flatMap initFunctionNames

/-- The sqlite3_db_config option constants used by the glue forwarders
(distinct SQLITE_DBCONFIG_* constants of sqlite3.h). -/
inductive DbConfigOp where
  | enableFkey
  | enableTrigger
  | enableView
  | enableLoadExtension
  | noCkptOnClose
  | enableQpsg
  | defensive
  | writableSchema
  | legacyAlterTable
  | dqsDml
  | dqsDdl
  | trustedSchema
deriving DecidableEq

/-- The sqlite3_vtab_config option constants used by the glue forwarders
(distinct SQLITE_VTAB_* constants of sqlite3.h). -/
inductive VtabConfigOp where
  | constraintSupport
  | innocuous
  | directonly
deriving DecidableEq

/-!
Each db_config forwarder takes the engine call sqlite3_db_config as a
parameter: a function of the connection handle (an arbitrary type γ), the
option constant, the int flag x, and whether the optional int out-pointer y
is non-null, returning the engine outcome of an arbitrary type ε (the raw
status code together with whatever the engine wrote through y).  The
forwarder body is the single engine application with its fixed option
constant; the Lean definitions below are pure functions, matching the C
bodies, which hold no state and perform no effect besides that one call.
-/

/-- feisty_db_sqlite3_db_config_enable_fkey from
src/Sources/CSQLite/feisty_db_sqlite3_glue.c. -/
def feisty_db_sqlite3_db_config_enable_fkey {γ ε : Type}
    (db_config : γ → DbConfigOp → Int → Bool → ε) (db : γ) (x : Int) (y : Bool) : ε :=
  db_config db DbConfigOp.enableFkey x y

/-- feisty_db_sqlite3_db_config_enable_trigger from
src/Sources/CSQLite/feisty_db_sqlite3_glue.c. -/
def feisty_db_sqlite3_db_config_enable_trigger {γ ε : Type}
    (db_config : γ → DbConfigOp → Int → Bool → ε) (db : γ) (x : Int) (y : Bool) : ε :=
  db_config db DbConfigOp.enableTrigger x y

/-- feisty_db_sqlite3_db_config_enable_view from
src/Sources/CSQLite/feisty_db_sqlite3_glue.c. -/
def feisty_db_sqlite3_db_config_enable_view {γ ε : Type}
    (db_config : γ → DbConfigOp → Int → Bool → ε) (db : γ) (x : Int) (y : Bool) : ε :=
  db_config db DbConfigOp.enableView x y

/-- feisty_db_sqlite3_db_config_enable_load_extension, defined identically
in src/FeistyDB/feisty_db_sqlite3_glue.c and in
src/Sources/CSQLite/feisty_db_sqlite3_glue.c. -/
def feisty_db_sqlite3_db_config_enable_load_extension {γ ε : Type}
    (db_config : γ → DbConfigOp → Int → Bool → ε) (db : γ) (x : Int) (y : Bool) : ε :=
  db_config db DbConfigOp.enableLoadExtension x y

/-- feisty_db_sqlite3_db_config_no_ckpt_on_close from
src/Sources/CSQLite/feisty_db_sqlite3_glue.c. -/
def feisty_db_sqlite3_db_config_no_ckpt_on_close {γ ε : Type}
    (db_config : γ → DbConfigOp → Int → Bool → ε) (db : γ) (x : Int) (y : Bool) : ε :=
  db_config db DbConfigOp.noCkptOnClose x y

/-- feisty_db_sqlite3_db_config_enable_qpsg from
src/Sources/CSQLite/feisty_db_sqlite3_glue.c. -/
def feisty_db_sqlite3_db_config_enable_qpsg {γ ε : Type}
    (db_config : γ → DbConfigOp → Int → Bool → ε) (db : γ) (x : Int) (y : Bool) : ε :=
  db_config db DbConfigOp.enableQpsg x y

/-- feisty_db_sqlite3_db_config_defensive from
src/Sources/CSQLite/feisty_db_sqlite3_glue.c. -/
def feisty_db_sqlite3_db_config_defensive {γ ε : Type}
    (db_config : γ → DbConfigOp → Int → Bool → ε) (db : γ) (x : Int) (y : Bool) : ε :=
  db_config db DbConfigOp.defensive x y

/-- feisty_db_sqlite3_db_config_writable_schema from
src/Sources/CSQLite/feisty_db_sqlite3_glue.c. -/
def feisty_db_sqlite3_db_config_writable_schema {γ ε : Type}
    (db_config : γ → DbConfigOp → Int → Bool → ε) (db : γ) (x : Int) (y : Bool) : ε :=
  db_config db DbConfigOp.writableSchema x y

/-- feisty_db_sqlite3_db_config_legacy_alter_table from
src/Sources/CSQLite/feisty_db_sqlite3_glue.c. -/
def feisty_db_sqlite3_db_config_legacy_alter_table {γ ε : Type}
    (db_config : γ → DbConfigOp → Int → Bool → ε) (db : γ) (x : Int) (y : Bool) : ε :=
  db_config db DbConfigOp.legacyAlterTable x y

/-- feisty_db_sqlite3_db_config_dqs_dml from
src/Sources/CSQLite/feisty_db_sqlite3_glue.c. -/
def feisty_db_sqlite3_db_config_dqs_dml {γ ε : Type}
    (db_config : γ → DbConfigOp → Int → Bool → ε) (db : γ) (x : Int) (y : Bool) : ε :=
  db_config db DbConfigOp.dqsDml x y

/-- feisty_db_sqlite3_db_config_dqs_ddl from
src/Sources/CSQLite/feisty_db_sqlite3_glue.c. -/
def feisty_db_sqlite3_db_config_dqs_ddl {γ ε : Type}
    (db_config : γ → DbConfigOp → Int → Bool → ε) (db : γ) (x : Int) (y : Bool) : ε :=
  db_config db DbConfigOp.dqsDdl x y

/-- feisty_db_sqlite3_db_config_trusted_schema from
src/Sources/CSQLite/feisty_db_sqlite3_glue.c. -/
def feisty_db_sqlite3_db_config_trusted_schema {γ ε : Type}
    (db_config : γ → DbConfigOp → Int → Bool → ε) (db : γ) (x : Int) (y : Bool) : ε :=
  db_config db DbConfigOp.trustedSchema x y

/-- feisty_db_sqlite3_vtab_config_constraint_support, defined identically in
both glue variants: forwards the single int argument of the
SQLITE_VTAB_CONSTRAINT_SUPPORT option. -/
def feisty_db_sqlite3_vtab_config_constraint_support {γ ε : Type}
    (vtab_config : γ → VtabConfigOp → Option Int → ε) (db : γ) (x : Int) : ε :=
  vtab_config db VtabConfigOp.constraintSupport (some x)

/-- feisty_db_sqlite3_vtab_config_innocuous, defined identically in both
glue variants: the SQLITE_VTAB_INNOCUOUS option carries no argument. -/
def feisty_db_sqlite3_vtab_config_innocuous {γ ε : Type}
    (vtab_config : γ → VtabConfigOp → Option Int → ε) (db : γ) : ε :=
  vtab_config db VtabConfigOp.innocuous none

/-- feisty_db_sqlite3_vtab_config_directonly, defined identically in both
glue variants: the SQLITE_VTAB_DIRECTONLY option carries no argument. -/
def feisty_db_sqlite3_vtab_config_directonly {γ ε : Type}
    (vtab_config : γ → VtabConfigOp → Option Int → ε) (db : γ) : ε :=
  vtab_config db VtabConfigOp.directonly none

/-- The functions defined by the glue variant
src/FeistyDB/feisty_db_sqlite3_glue.c, in source order. -/
def feistyDBGlueExports : List String :=
  ["feisty_db_sqlite3_strdup",
   "feisty_db_sqlite3_db_config_enable_load_extension",
   "feisty_db_sqlite3_vtab_config_constraint_support",
   "feisty_db_sqlite3_vtab_config_innocuous",
   "feisty_db_sqlite3_vtab_config_directonly"]

/-- The functions defined by the glue variant
src/Sources/CSQLite/feisty_db_sqlite3_glue.c, in source order. -/
def csqliteGlueExports : List String :=
  ["feisty_db_sqlite3_strdup",
   "feisty_db_sqlite3_db_config_enable_fkey",
   "feisty_db_sqlite3_db_config_enable_trigger",
   "feisty_db_sqlite3_db_config_enable_view",
   "feisty_db_sqlite3_db_config_enable_load_extension",
   "feisty_db_sqlite3_db_config_no_ckpt_on_close",
   "feisty_db_sqlite3_db_config_enable_qpsg",
   "feisty_db_sqlite3_db_config_defensive",
   "feisty_db_sqlite3_db_config_writable_schema",
   "feisty_db_sqlite3_db_config_legacy_alter_table",
   "feisty_db_sqlite3_db_config_dqs_dml",
   "feisty_db_sqlite3_db_config_dqs_ddl",
   "feisty_db_sqlite3_db_config_trusted_schema",
   "feisty_db_sqlite3_vtab_config_constraint_support",
   "feisty_db_sqlite3_vtab_config_innocuous",
   "feisty_db_sqlite3_vtab_config_directonly"]

/-- The value delivered through sqlite3_result_int is congruent to the
unsigned 32-bit hash modulo 2^32. -/
theorem toInt32_emod (n : Nat) :
    toInt32 n % 4294967296 = (n : Int) % 4294967296 := by
  simp only [toInt32]
  split <;> omega

/-- The value delivered through sqlite3_result_int64 is congruent to the
unsigned 64-bit hash modulo 2^64. -/
theorem toInt64_emod (n : Nat) :
    toInt64 n % 18446744073709551616 = (n : Int) % 18446744073709551616 := by
  simp only [toInt64]
  split <;> omega

/-- The registration loop registers a prefix of its scalars table: the final
connection state extends the initial one by the first k scalars; on success
k is the whole table, and on failure the k-th registration call is the one
that produced the returned status code. -/
theorem registerScalars_spec (engine : List ScalarSpec → ScalarSpec → Int)
    (names : List ScalarSpec) (db : List ScalarSpec) :
    ∃ k, k ≤ names.length ∧
      (registerScalars engine names db).2 = db ++ names.take k ∧
      ((registerScalars engine names db).1 = SQLITE_OK → k = names.length) ∧
      ((registerScalars engine names db).1 ≠ SQLITE_OK → k < names.length ∧
        ∃ s, names.get? k = some s ∧
          engine (db ++ names.take k) s = (registerScalars engine names db).1) := by
  induction names generalizing db with
  | nil =>
    refine ⟨0, ?_⟩
    simp [registerScalars]
  | cons s rest ih =>
    by_cases h : engine db s = SQLITE_OK
    · have hstep : registerScalars engine (s :: rest) db
          = registerScalars engine rest (db ++ [s]) := by
        simp [registerScalars, sqlite3_create_function, h]
      obtain ⟨k, hk, hdb, hok, hfail⟩ := ih (db ++ [s])
      refine ⟨k + 1, ?_, ?_, ?_, ?_⟩
      · simpa using Nat.succ_le_succ hk
      · rw [hstep, hdb]
        simp [List.take_succ_cons]
      · intro hrc
        rw [hstep] at hrc
        simp [hok hrc]
      · intro hrc
        rw [hstep] at hrc
        obtain ⟨hlt, t, ht, he⟩ := hfail hrc
        refine ⟨by simpa using Nat.succ_lt_succ hlt, t, by simpa using ht, ?_⟩
        rw [hstep]
        simpa [List.take_succ_cons] using he
    · have hstep : registerScalars engine (s :: rest) db = (engine db s, db) := by
        simp [registerScalars, sqlite3_create_function, h]
      refine ⟨0, Nat.zero_le _, ?_, ?_, ?_⟩
      · rw [hstep]
        simp
      · intro hrc
        rw [hstep] at hrc
        exact absurd hrc h
      · intro _
        refine ⟨Nat.succ_pos _, s, rfl, ?_⟩
        rw [hstep]
        simp

/-- Claim C1 counterexample: the process-startup constructor
feisty_db_register_sqlite_extensions registers only sqlite3_uuid_init and
sqlite3_sha_init with the auto-extension mechanism; sqlite3_xxh_init is
never auto-registered, so a connection opened after process start cannot
evaluate xxh32 or xxh64 without explicit per-connection setup.  This
refutes the claim that all 7 scalar functions become available. -/
theorem xxh_init_not_auto_registered :
    ExtensionInit.xxhInit ∉ feisty_db_register_sqlite_extensions [] ∧
    "xxh32" ∉ connectionFunctions (feisty_db_register_sqlite_extensions []) ∧
    "xxh64" ∉ connectionFunctions (feisty_db_register_sqlite_extensions []) := by
  decide

/-- Claim C1 (amended): the process-startup constructor registers the UUID
and SHA extension init entry points with the auto-extension mechanism, so
every connection opened after process start can evaluate the 5 scalar
functions sha1, sha224, sha256, sha384, sha512 without explicit
per-connection setup; the xxh extension init entry point is not registered,
so xxh32 and xxh64 are not picked up automatically. -/
theorem auto_registration_covers_sha_not_xxh :
    ExtensionInit.uuidInit ∈ feisty_db_register_sqlite_extensions [] ∧
    ExtensionInit.shaInit ∈ feisty_db_register_sqlite_extensions [] ∧
    (∀ n ∈ shaFunctionNames,
      n ∈ connectionFunctions (feisty_db_register_sqlite_extensions [])) ∧
    "xxh32" ∉ connectionFunctions (feisty_db_register_sqlite_extensions []) ∧
    "xxh64" ∉ connectionFunctions (feisty_db_register_sqlite_extensions []) := by
  decide

/-- Claim C2: for every byte sequence b given as a BLOB or TEXT argument,
xxh32 delivers one integer value that is congruent modulo 2^32 to the
reference xxHash32 computation over the bytes of b with seed 0 (the single
library call the C code makes). -/
theorem xxh32_matches_reference_mod_2_32
    (XXH32 : List Nat → Nat → Nat) (b : List Nat) :
    ∃ v : Int,
      xxh32func XXH32 (SQLiteValue.blob b) = SQLiteResult.intRes v ∧
      xxh32func XXH32 (SQLiteValue.text b) = SQLiteResult.intRes v ∧
      v % 4294967296 = (XXH32 b 0 : Int) % 4294967296 :=
  ⟨toInt32 (XXH32 b 0), rfl, rfl, toInt32_emod (XXH32 b 0)⟩

/-- Claim C3: every one of the 7 scalar functions, applied to an integer or
float argument, sets an error result whose fixed message names the function
and the supported types, and (the result being an error) produces no
blob, integer, or null result. -/
theorem digest_functions_reject_integer_and_float
    (s1 s224 s256 s384 s512 : List Nat → List Nat)
    (x32 x64 : List Nat → Nat → Nat) (i : Int) :
    sha1func s1 (SQLiteValue.integer i) =
      SQLiteResult.errorRes "sha1 only supports BLOB, TEXT, and NULL types" ∧
    sha1func s1 SQLiteValue.float =
      SQLiteResult.errorRes "sha1 only supports BLOB, TEXT, and NULL types" ∧
    sha224func s224 (SQLiteValue.integer i) =
      SQLiteResult.errorRes "sha224 only supports BLOB, TEXT, and NULL types" ∧
    sha224func s224 SQLiteValue.float =
      SQLiteResult.errorRes "sha224 only supports BLOB, TEXT, and NULL types" ∧
    sha256func s256 (SQLiteValue.integer i) =
      SQLiteResult.errorRes "sha256 only supports BLOB, TEXT, and NULL types" ∧
    sha256func s256 SQLiteValue.float =
      SQLiteResult.errorRes "sha256 only supports BLOB, TEXT, and NULL types" ∧
    sha384func s384 (SQLiteValue.integer i) =
      SQLiteResult.errorRes "sha384 only supports BLOB, TEXT, and NULL types" ∧
    sha384func s384 SQLiteValue.float =
      SQLiteResult.errorRes "sha384 only supports BLOB, TEXT, and NULL types" ∧
    sha512func s512 (SQLiteValue.integer i) =
      SQLiteResult.errorRes "sha512 only supports BLOB, TEXT, and NULL types" ∧
    sha512func s512 SQLiteValue.float =
      SQLiteResult.errorRes "sha512 only supports BLOB, TEXT, and NULL types" ∧
    xxh32func x32 (SQLiteValue.integer i) =
      SQLiteResult.errorRes "xxh32 only supports BLOB, TEXT, and NULL types" ∧
    xxh32func x32 SQLiteValue.float =
      SQLiteResult.errorRes "xxh32 only supports BLOB, TEXT, and NULL types" ∧
    xxh64func x64 (SQLiteValue.integer i) =
      SQLiteResult.errorRes "xxh64 only supports BLOB, TEXT, and NULL types" ∧
    xxh64func x64 SQLiteValue.float =
      SQLiteResult.errorRes "xxh64 only supports BLOB, TEXT, and NULL types" :=
  ⟨rfl, rfl, rfl, rfl, rfl, rfl, rfl, rfl, rfl, rfl, rfl, rfl, rfl, rfl⟩

/-- Claim C4: every one of the 7 scalar functions, applied to a NULL
argument, sets the null result (null propagates; the result being null, no
error is raised). -/
theorem digest_functions_propagate_null
    (s1 s224 s256 s384 s512 : List Nat → List Nat)
    (x32 x64 : List Nat → Nat → Nat) :
    sha1func s1 SQLiteValue.null = SQLiteResult.nullRes ∧
    sha224func s224 SQLiteValue.null = SQLiteResult.nullRes ∧
    sha256func s256 SQLiteValue.null = SQLiteResult.nullRes ∧
    sha384func s384 SQLiteValue.null = SQLiteResult.nullRes ∧
    sha512func s512 SQLiteValue.null = SQLiteResult.nullRes ∧
    xxh32func x32 SQLiteValue.null = SQLiteResult.nullRes ∧
    xxh64func x64 SQLiteValue.null = SQLiteResult.nullRes :=
  ⟨rfl, rfl, rfl, rfl, rfl, rfl, rfl⟩

/-- Claim C5: register_sha_functions and register_xxh_functions register
their scalars tables strictly sequentially in source order; the final
connection state extends the initial one by exactly the first k entries of
the table; the routine returns SQLITE_OK exactly when every registration
succeeded (k is the whole table), and otherwise returns exactly the status
code of the k-th registration call, the first failing one, with no function
after it registered and every function before it still registered. -/
theorem registration_sequential_first_failure
    (engine : List ScalarSpec → ScalarSpec → Int) (db : List ScalarSpec) :
    (∃ k, k ≤ shaScalars.length ∧
      (register_sha_functions engine db).2 = db ++ shaScalars.take k ∧
      ((register_sha_functions engine db).1 = SQLITE_OK → k = shaScalars.length) ∧
      ((register_sha_functions engine db).1 ≠ SQLITE_OK → k < shaScalars.length ∧
        ∃ s, shaScalars.get? k = some s ∧
          engine (db ++ shaScalars.take k) s = (register_sha_functions engine db).1)) ∧
    (∃ k, k ≤ xxhScalars.length ∧
      (register_xxh_functions engine db).2 = db ++ xxhScalars.take k ∧
      ((register_xxh_functions engine db).1 = SQLITE_OK → k = xxhScalars.length) ∧
      ((register_xxh_functions engine db).1 ≠ SQLITE_OK → k < xxhScalars.length ∧
        ∃ s, xxhScalars.get? k = some s ∧
          engine (db ++ xxhScalars.take k) s = (register_xxh_functions engine db).1)) :=
  ⟨registerScalars_spec engine shaScalars db, registerScalars_spec engine xxhScalars db⟩

/-- Claim C6 counterexample: the claim states that one glue variant
provides feisty_db_sqlite3_db_config_enable_load_extension while the other
omits it; in fact both variants define that forwarder, so the claimed
difference does not exist. -/
theorem both_glue_variants_provide_load_extension_forwarder :
    "feisty_db_sqlite3_db_config_enable_load_extension" ∈ feistyDBGlueExports ∧
    "feisty_db_sqlite3_db_config_enable_load_extension" ∈ csqliteGlueExports ∧
    ¬(("feisty_db_sqlite3_db_config_enable_load_extension" ∈ feistyDBGlueExports ∧
       "feisty_db_sqlite3_db_config_enable_load_extension" ∉ csqliteGlueExports) ∨
      ("feisty_db_sqlite3_db_config_enable_load_extension" ∉ feistyDBGlueExports ∧
       "feisty_db_sqlite3_db_config_enable_load_extension" ∈ csqliteGlueExports)) := by
  decide

/-- Claim C6 (amended): both near-duplicate glue source variants provide
the db_config extension-loading forwarder; the two variants do differ, but
in the other db_config forwarders: for example, the enable_fkey forwarder
is provided only by the Sources/CSQLite variant. -/
theorem glue_variants_differ_in_other_db_config_forwarders :
    "feisty_db_sqlite3_db_config_enable_load_extension" ∈ feistyDBGlueExports ∧
    "feisty_db_sqlite3_db_config_enable_load_extension" ∈ csqliteGlueExports ∧
    "feisty_db_sqlite3_db_config_enable_fkey" ∈ csqliteGlueExports ∧
    "feisty_db_sqlite3_db_config_enable_fkey" ∉ feistyDBGlueExports ∧
    feistyDBGlueExports ≠ csqliteGlueExports := by
  decide

/-- Claim C7: every configuration forwarder is exactly the single
underlying engine configuration call with its fixed option constant: for
every connection handle, every flag, every out-slot, and every engine
behavior, the forwarder returns the raw engine outcome of that one call
unchanged, with no validation, translation, local state, or other local
side effect (each forwarder is a pure function whose body is that single
application). -/
theorem config_forwarders_return_raw_engine_result (γ ε : Type)
    (db_config : γ → DbConfigOp → Int → Bool → ε)
    (vtab_config : γ → VtabConfigOp → Option Int → ε)
    (db : γ) (x : Int) (y : Bool) :
    feisty_db_sqlite3_db_config_enable_fkey db_config db x y =
      db_config db DbConfigOp.enableFkey x y ∧
    feisty_db_sqlite3_db_config_enable_trigger db_config db x y =
      db_config db DbConfigOp.enableTrigger x y ∧
    feisty_db_sqlite3_db_config_enable_view db_config db x y =
      db_config db DbConfigOp.enableView x y ∧
    feisty_db_sqlite3_db_config_enable_load_extension db_config db x y =
      db_config db DbConfigOp.enableLoadExtension x y ∧
    feisty_db_sqlite3_db_config_no_ckpt_on_close db_config db x y =
      db_config db DbConfigOp.noCkptOnClose x y ∧
    feisty_db_sqlite3_db_config_enable_qpsg db_config db x y =
      db_config db DbConfigOp.enableQpsg x y ∧
    feisty_db_sqlite3_db_config_defensive db_config db x y =
      db_config db DbConfigOp.defensive x y ∧
    feisty_db_sqlite3_db_config_writable_schema db_config db x y =
      db_config db DbConfigOp.writableSchema x y ∧
    feisty_db_sqlite3_db_config_legacy_alter_table db_config db x y =
      db_config db DbConfigOp.legacyAlterTable x y ∧
    feisty_db_sqlite3_db_config_dqs_dml db_config db x y =
      db_config db DbConfigOp.dqsDml x y ∧
    feisty_db_sqlite3_db_config_dqs_ddl db_config db x y =
      db_config db DbConfigOp.dqsDdl x y ∧
    feisty_db_sqlite3_db_config_trusted_schema db_config db x y =
      db_config db DbConfigOp.trustedSchema x y ∧
    feisty_db_sqlite3_vtab_config_constraint_support vtab_config db x =
      vtab_config db VtabConfigOp.constraintSupport (some x) ∧
    feisty_db_sqlite3_vtab_config_innocuous vtab_config db =
      vtab_config db VtabConfigOp.innocuous none ∧
    feisty_db_sqlite3_vtab_config_directonly vtab_config db =
      vtab_config db VtabConfigOp.directonly none :=
  ⟨rfl, rfl, rfl, rfl, rfl, rfl, rfl, rfl, rfl, rfl, rfl, rfl, rfl, rfl, rfl⟩

/-- Claim C8: for every BLOB or TEXT argument, each SHA-family function
returns a blob result whose length is the fixed digest length of its
algorithm (20/28/32/48/64 bytes), under the CommonCrypto contract that each
one-shot digest fills exactly its CC_*_DIGEST_LENGTH-byte output buffer. -/
theorem sha_functions_return_fixed_length_blobs
    (s1 s224 s256 s384 s512 : List Nat → List Nat)
    (h1 : ∀ m, (s1 m).length = CC_SHA1_DIGEST_LENGTH)
    (h224 : ∀ m, (s224 m).length = CC_SHA224_DIGEST_LENGTH)
    (h256 : ∀ m, (s256 m).length = CC_SHA256_DIGEST_LENGTH)
    (h384 : ∀ m, (s384 m).length = CC_SHA384_DIGEST_LENGTH)
    (h512 : ∀ m, (s512 m).length = CC_SHA512_DIGEST_LENGTH)
    (b : List Nat) :
    (∃ d, sha1func s1 (SQLiteValue.blob b) = SQLiteResult.blobRes d ∧
      sha1func s1 (SQLiteValue.text b) = SQLiteResult.blobRes d ∧ d.length = 20) ∧
    (∃ d, sha224func s224 (SQLiteValue.blob b) = SQLiteResult.blobRes d ∧
      sha224func s224 (SQLiteValue.text b) = SQLiteResult.blobRes d ∧ d.length = 28) ∧
    (∃ d, sha256func s256 (SQLiteValue.blob b) = SQLiteResult.blobRes d ∧
      sha256func s256 (SQLiteValue.text b) = SQLiteResult.blobRes d ∧ d.length = 32) ∧
    (∃ d, sha384func s384 (SQLiteValue.blob b) = SQLiteResult.blobRes d ∧
      sha384func s384 (SQLiteValue.text b) = SQLiteResult.blobRes d ∧ d.length = 48) ∧
    (∃ d, sha512func s512 (SQLiteValue.blob b) = SQLiteResult.blobRes d ∧
      sha512func s512 (SQLiteValue.text b) = SQLiteResult.blobRes d ∧ d.length = 64) :=
  ⟨⟨s1 b, rfl, rfl, h1 b⟩, ⟨s224 b, rfl, rfl, h224 b⟩, ⟨s256 b, rfl, rfl, h256 b⟩,
   ⟨s384 b, rfl, rfl, h384 b⟩, ⟨s512 b, rfl, rfl, h512 b⟩⟩

/-- Witness for claim C8, instantiating each digest parameter with a
concrete fixed-length function and the argument with the empty byte
sequence. -/
theorem sha_functions_return_fixed_length_blobs_witness :
    ∃ d, sha1func (fun _ => List.replicate 20 0) (SQLiteValue.blob []) =
        SQLiteResult.blobRes d ∧
      sha1func (fun _ => List.replicate 20 0) (SQLiteValue.text []) =
        SQLiteResult.blobRes d ∧ d.length = 20 :=
  (sha_functions_return_fixed_length_blobs
    (fun _ => List.replicate 20 0) (fun _ => List.replicate 28 0)
    (fun _ => List.replicate 32 0) (fun _ => List.replicate 48 0)
    (fun _ => List.replicate 64 0)
    (fun _ => by simp [CC_SHA1_DIGEST_LENGTH])
    (fun _ => by simp [CC_SHA224_DIGEST_LENGTH])
    (fun _ => by simp [CC_SHA256_DIGEST_LENGTH])
    (fun _ => by simp [CC_SHA384_DIGEST_LENGTH])
    (fun _ => by simp [CC_SHA512_DIGEST_LENGTH]) []).1

/-- Claim C9: for every one of the 7 scalar functions, a TEXT argument with
byte sequence b gives the same result as a BLOB argument with the same
bytes: the TEXT and BLOB branches compute the identical hash over the same
bytes and length. -/
theorem text_blob_agreement
    (s1 s224 s256 s384 s512 : List Nat → List Nat)
    (x32 x64 : List Nat → Nat → Nat) (b : List Nat) :
    sha1func s1 (SQLiteValue.text b) = sha1func s1 (SQLiteValue.blob b) ∧
    sha224func s224 (SQLiteValue.text b) = sha224func s224 (SQLiteValue.blob b) ∧
    sha256func s256 (SQLiteValue.text b) = sha256func s256 (SQLiteValue.blob b) ∧
    sha384func s384 (SQLiteValue.text b) = sha384func s384 (SQLiteValue.blob b) ∧
    sha512func s512 (SQLiteValue.text b) = sha512func s512 (SQLiteValue.blob b) ∧
    xxh32func x32 (SQLiteValue.text b) = xxh32func x32 (SQLiteValue.blob b) ∧
    xxh64func x64 (SQLiteValue.text b) = xxh64func x64 (SQLiteValue.blob b) :=
  ⟨rfl, rfl, rfl, rfl, rfl, rfl, rfl⟩

/-- Claim C10: xxh32 delivers its unsigned 32-bit hash through the signed
32-bit sqlite3_result_int API and xxh64 delivers its unsigned 64-bit hash
through the signed 64-bit sqlite3_result_int64 API, so whenever the
unsigned hash value (reduced to its machine width) is at least 2^31
(respectively 2^63), the delivered SQL integer is the hash reinterpreted as
a negative two's complement value, not the unsigned value itself. -/
theorem xxh_results_reinterpreted_signed :
    (∀ (XXH32 : List Nat → Nat → Nat) (b : List Nat),
      xxh32func XXH32 (SQLiteValue.blob b) =
        SQLiteResult.intRes (toInt32 (XXH32 b 0)) ∧
      xxh32func XXH32 (SQLiteValue.text b) =
        SQLiteResult.intRes (toInt32 (XXH32 b 0)) ∧
      (2147483648 ≤ XXH32 b 0 % 4294967296 →
        toInt32 (XXH32 b 0) =
          ((XXH32 b 0 % 4294967296 : Nat) : Int) - 4294967296 ∧
        toInt32 (XXH32 b 0) < 0)) ∧
    (∀ (XXH64 : List Nat → Nat → Nat) (b : List Nat),
      xxh64func XXH64 (SQLiteValue.blob b) =
        SQLiteResult.int64Res (toInt64 (XXH64 b 0)) ∧
      xxh64func XXH64 (SQLiteValue.text b) =
        SQLiteResult.int64Res (toInt64 (XXH64 b 0)) ∧
      (9223372036854775808 ≤ XXH64 b 0 % 18446744073709551616 →
        toInt64 (XXH64 b 0) =
          ((XXH64 b 0 % 18446744073709551616 : Nat) : Int) - 18446744073709551616 ∧
        toInt64 (XXH64 b 0) < 0)) := by
  constructor
  · intro XXH32 b
    refine ⟨rfl, rfl, fun h => ?_⟩
    simp only [toInt32]
    constructor <;> split <;> omega
  · intro XXH64 b
    refine ⟨rfl, rfl, fun h => ?_⟩
    simp only [toInt64]
    constructor <;> split <;> omega

/-- Witness for claim C10 at concrete hash values 2^31 and 2^63: the
delivered SQL integers are the negative reinterpretations. -/
theorem xxh_results_reinterpreted_signed_witness :
    xxh32func (fun _ _ => 2147483648) (SQLiteValue.blob []) =
      SQLiteResult.intRes (-2147483648) ∧
    xxh64func (fun _ _ => 9223372036854775808) (SQLiteValue.blob []) =
      SQLiteResult.int64Res (-9223372036854775808) := by
  obtain ⟨h32, h64⟩ := xxh_results_reinterpreted_signed
  obtain ⟨e32, _, himp32⟩ := h32 (fun _ _ => 2147483648) []
  obtain ⟨v32, _⟩ := himp32 (by norm_num)
  obtain ⟨e64, _, himp64⟩ := h64 (fun _ _ => 9223372036854775808) []
  obtain ⟨v64, _⟩ := himp64 (by norm_num)
  refine ⟨?_, ?_⟩
  · rw [e32, v32]
    norm_num
  · rw [e64, v64]
    norm_num
